import Mathlib

/-!
Verification of the appointment-slot booking core of the clinic application.

The embedding translates the Express route handlers of
`back-end/src/routes/appointments.js` into pure Lean functions over an
explicit store (the `appointments` table, a list of rows).  Dates and times
are modelled as natural numbers: the source compares parsed dates with `<`
and sorts `HH:MM` strings lexicographically, both of which are
order-isomorphic to `Nat` comparisons, and the claims only depend on the
order.  `today` (the midnight cutoff the handlers compute) and `now` (the
`new Date().toISOString()` timestamp written into `updatedAt`) are passed as
parameters.  SQL `db.get` (first matching row) is `List.find?`, SQL `UPDATE
... WHERE id = ?` is a `List.map` that rewrites exactly the rows with that
id, and `ORDER BY time ASC` is an insertion sort.
-/

deriving instance DecidableEq for Except

namespace Appointment

/-- Slot status, per the CHECK constraint of the `appointments` table. -/
inductive Status where
  | available
  | booked
  | cancelled
  | completed
deriving DecidableEq, Repr

/-- A row of the `appointments` table (the columns the handlers touch).
`patientId` and `notes` are nullable columns. -/
structure Slot where
  id : String
  doctorId : String
  date : Nat
  time : Nat
  status : Status
  patientId : Option String
  notes : Option String
  updatedAt : Nat
deriving DecidableEq, Repr

/-- The `appointments` table. -/
abbrev Store := List Slot

/-- JS `a || b` on a nullable string: `null`/`undefined` and `""` are falsy. -/
def strOr (a b : Option String) : Option String :=
  match a with
  | some s => if s = "" then b else some s
  | none => b

/-- JS `a || b` where the fallback is a present string. -/
def strOrD (a : Option String) (b : String) : String :=
  match a with
  | some s => if s = "" then b else s
  | none => b

/-- Row predicate of the availability lookup
`SELECT * FROM appointments WHERE doctorId = ? AND date = ? AND time = ? AND status = "available"`. -/
def isAvailableSlotFor (doctorId : String) (date time : Nat) (s : Slot) : Bool :=
  decide (s.doctorId = doctorId ∧ s.date = date ∧ s.time = time ∧ s.status = Status.available)

/-- Row predicate of the double-booking lookup
`SELECT * FROM appointments WHERE patientId = ? AND date = ? AND time = ? AND status = "booked"`,
optionally with the reschedule handler's extra `AND id != ?`.  When the bound
`patientId` parameter is SQL NULL the equality matches no row. -/
def isPatientBookedAt (patientId : Option String) (date time : Nat) (exclId : Option String)
    (s : Slot) : Bool :=
  match patientId with
  | none => false
  | some p =>
      decide (s.patientId = some p ∧ s.date = date ∧ s.time = time ∧
        s.status = Status.booked) &&
      (match exclId with
       | none => true
       | some e => decide (s.id ≠ e))

/-- Row predicate of `SELECT * FROM appointments WHERE id = ?`. -/
def hasId (id : String) (s : Slot) : Bool :=
  decide (s.id = id)

/-- Failure responses of the `POST /` (book) handler, one per distinct
client-visible error body. -/
inductive BookError where
  | missingFields
  | pastDate
  | slotUnavailable
  | doubleBooking
deriving DecidableEq, Repr

/-- The JSON `error` string the book handler sends for each failure. -/
def BookError.message : BookError → String
  | .missingFields => "Missing required fields: patientId, doctorId, date, time"
  | .pastDate => "Cannot book appointments in the past"
  | .slotUnavailable => "Selected time slot is not available"
  | .doubleBooking => "Patient already has an appointment at this time"

/-- Check phase of the `POST /` handler: field validation, the past-date
guard, the availability SELECT and the double-booking SELECT, in source
order.  Returns the slot row the later UPDATE will target. -/
def bookCheck (today : Nat) (store : Store) (patientId doctorId : String)
    (date time : Nat) : Except BookError Slot :=
  if patientId = "" ∨ doctorId = "" then .error .missingFields
  else if date < today then .error .pastDate
  else
    match store.find? (isAvailableSlotFor doctorId date time) with
    | none => .error .slotUnavailable
    | some slot =>
        match store.find? (isPatientBookedAt (some patientId) date time none) with
        | some _ => .error .doubleBooking
        | none => .ok slot

/-- Write phase of the `POST /` handler:
`UPDATE appointments SET patientId = ?, status = "booked", notes = ?, updatedAt = ? WHERE id = ?`.
The WHERE clause conditions on the id alone — not on the current status —
and the handler's callback never inspects `this.changes`, so the write
applies to whatever row holds that id and is always treated as a success. -/
def bookWrite (now : Nat) (store : Store) (patientId : String) (notes : Option String)
    (slotId : String) : Store :=
  store.map fun s =>
    if s.id = slotId then
      { s with patientId := some patientId, status := Status.booked,
               notes := strOr notes none, updatedAt := now }
    else s

/-- The `POST /` handler: check phase then write phase, then the re-SELECT of
the updated row that the 201 response returns (ids are a PRIMARY KEY, so the
re-SELECT returns the row the UPDATE produced). -/
def book (today now : Nat) (store : Store) (patientId doctorId : String)
    (date time : Nat) (notes : Option String) : Except BookError (Store × Slot) :=
  match bookCheck today store patientId doctorId date time with
  | .error e => .error e
  | .ok slot =>
      .ok (bookWrite now store patientId notes slot.id,
        { slot with patientId := some patientId, status := Status.booked,
                    notes := strOr notes none, updatedAt := now })

/-- The table state after a `POST /` request: failures respond before the
UPDATE runs, so they leave the store as it was. -/
def bookStore (today now : Nat) (store : Store) (patientId doctorId : String)
    (date time : Nat) (notes : Option String) : Store :=
  match book today now store patientId doctorId date time notes with
  | .ok (st, _) => st
  | .error _ => store

/-- Failure responses of the `PUT /:id` (reschedule) handler. -/
inductive RescheduleError where
  | notFound
  | invalidTransition
  | pastDate
  | slotUnavailable
  | doubleBooking
deriving DecidableEq, Repr

/-- The JSON `error` string the reschedule handler sends for each failure. -/
def RescheduleError.message : RescheduleError → String
  | .notFound => "Appointment not found"
  | .invalidTransition => "Only booked appointments can be rescheduled"
  | .pastDate => "Cannot reschedule appointments to the past"
  | .slotUnavailable => "New time slot is not available"
  | .doubleBooking => "Patient already has an appointment at this time"

/-- Check phase of the `PUT /:id` handler, in source order: fetch the
appointment by id, require status `booked`, the past-date guard on a
provided date, the target-availability SELECT with `doctorId || appointment.doctorId`
fallbacks, and the double-booking SELECT that excludes the appointment being
moved (`AND id != ?`).  Returns the source row and the target row. -/
def rescheduleCheck (today : Nat) (store : Store) (id : String)
    (doctorId : Option String) (date time : Option Nat) :
    Except RescheduleError (Slot × Slot) :=
  match store.find? (hasId id) with
  | none => .error .notFound
  | some appointment =>
      if appointment.status = Status.booked then
        match date with
        | some d =>
            if d < today then .error .pastDate
            else rescheduleFind today store id doctorId date time appointment
        | none => rescheduleFind today store id doctorId date time appointment
      else .error .invalidTransition
where
  /-- The two SELECTs that follow the guards. -/
  rescheduleFind (_today : Nat) (store : Store) (id : String) (doctorId : Option String)
      (date time : Option Nat) (appointment : Slot) : Except RescheduleError (Slot × Slot) :=
    match store.find? (isAvailableSlotFor (strOrD doctorId appointment.doctorId)
        (date.getD appointment.date) (time.getD appointment.time)) with
    | none => .error .slotUnavailable
    | some newSlot =>
        match store.find? (isPatientBookedAt appointment.patientId
            (date.getD appointment.date) (time.getD appointment.time) (some id)) with
        | some _ => .error .doubleBooking
        | none => .ok (appointment, newSlot)

/-- First write of the `PUT /:id` handler:
`UPDATE appointments SET patientId = NULL, status = "available", notes = NULL, updatedAt = ? WHERE id = ?`. -/
def freeSlot (now : Nat) (store : Store) (id : String) : Store :=
  store.map fun s =>
    if s.id = id then
      { s with patientId := none, status := Status.available, notes := none, updatedAt := now }
    else s

/-- Second write of the `PUT /:id` handler (also the statement shape of the
book UPDATE): `UPDATE appointments SET patientId = ?, status = "booked", notes = ?, updatedAt = ? WHERE id = ?`. -/
def claimSlot (now : Nat) (store : Store) (patientId : Option String) (notes : Option String)
    (id : String) : Store :=
  store.map fun s =>
    if s.id = id then
      { s with patientId := patientId, status := Status.booked, notes := notes, updatedAt := now }
    else s

/-- The `PUT /:id` handler: check phase, then the two UPDATE statements run
one after the other — the source issues no `BEGIN`/`COMMIT`, each statement
commits on its own, and the callback of a failed second statement responds
500 without undoing the first.  `now₁`/`now₂` are the two separate
`new Date().toISOString()` calls.  Returns the new store and the
`appointmentId: newSlot.id` of the success response. -/
def reschedule (today now₁ now₂ : Nat) (store : Store) (id : String)
    (doctorId : Option String) (date time : Option Nat) (notes : Option String) :
    Except RescheduleError (Store × String) :=
  match rescheduleCheck today store id doctorId date time with
  | .error e => .error e
  | .ok (appointment, newSlot) =>
      .ok (claimSlot now₂ (freeSlot now₁ store id) appointment.patientId
            (strOr notes appointment.notes) newSlot.id,
          newSlot.id)

/-- Failure responses of the `PATCH /:id/cancel` handler. -/
inductive CancelError where
  | notFound
  | invalidTransition
  | pastDate
deriving DecidableEq, Repr

/-- The JSON `error` string the cancel handler sends for each failure. -/
def CancelError.message : CancelError → String
  | .notFound => "Appointment not found"
  | .invalidTransition => "Only booked appointments can be cancelled"
  | .pastDate => "Cannot cancel past appointments"

/-- The `PATCH /:id/cancel` handler: fetch by id, require status `booked`,
the past-date guard, then
`UPDATE appointments SET status = "cancelled", updatedAt = ? WHERE id = ?`.
The UPDATE sets only `status` and `updatedAt`; `patientId` and `notes`
remain as they were. -/
def cancel (today now : Nat) (store : Store) (id : String) : Except CancelError Store :=
  match store.find? (hasId id) with
  | none => .error .notFound
  | some appointment =>
      if appointment.status = Status.booked then
        if appointment.date < today then .error .pastDate
        else
          .ok (store.map fun s =>
            if s.id = id then { s with status := Status.cancelled, updatedAt := now } else s)
      else .error .invalidTransition

/-- Failure responses of the `GET /slots/available` handler. -/
inductive ListSlotsError where
  | missingParams
  | pastDate
deriving DecidableEq, Repr

/-- The JSON `error` string the list handler sends for each failure. -/
def ListSlotsError.message : ListSlotsError → String
  | .missingParams => "Missing required query parameters: doctorId, date"
  | .pastDate => "Cannot view slots for past dates"

/-- The projected columns of `SELECT id, doctorId, date, time, status`. -/
structure SlotView where
  id : String
  doctorId : String
  date : Nat
  time : Nat
  status : Status
deriving DecidableEq, Repr

/-- Column projection of the available-slots SELECT. -/
def toView (s : Slot) : SlotView :=
  { id := s.id, doctorId := s.doctorId, date := s.date, time := s.time, status := s.status }

/-- Row predicate of
`WHERE doctorId = ? AND date = ? AND status = "available"`. -/
def isAvailableOn (doctorId : String) (date : Nat) (s : Slot) : Bool :=
  decide (s.doctorId = doctorId ∧ s.date = date ∧ s.status = Status.available)

/-- The comparison behind `ORDER BY time ASC`. -/
def timeLe (a b : SlotView) : Prop := a.time ≤ b.time

instance : DecidableRel timeLe := fun a b => Nat.decLe a.time b.time

instance : IsTotal SlotView timeLe := ⟨fun a b => Nat.le_total a.time b.time⟩

instance : IsTrans SlotView timeLe := ⟨fun _ _ _ h₁ h₂ => Nat.le_trans h₁ h₂⟩

/-- The SELECT of the `GET /slots/available` handler: WHERE filter, column
projection, `ORDER BY time ASC`. -/
def availableSlotsQuery (store : Store) (doctorId : String) (date : Nat) : List SlotView :=
  ((store.filter (isAvailableOn doctorId date)).map toView).insertionSort timeLe

/-- The `GET /slots/available` handler: require both query parameters, the
past-date guard, then the SELECT.  The handler only reads; it never mutates
the store, which the embedding reflects by returning no store at all. -/
def listAvailableSlots (today : Nat) (store : Store) (doctorId : String) (date : Nat) :
    Except ListSlotsError (List SlotView) :=
  if doctorId = "" then .error .missingParams
  else if date < today then .error .pastDate
  else .ok (availableSlotsQuery store doctorId date)

/-- The front-end `completeAppointment(id, diagnosis, prescription)` sends
`PUT /appointments/:id` with body `{status: 'completed', diagnosis, prescription}`
(via `updateAppointment`).  The backend `PUT /:id` handler is the reschedule
handler; it destructures only `{doctorId, date, time, notes}` from the body,
all of which are absent, and ignores `status`, `diagnosis` and
`prescription` entirely (the `appointments` table has no such columns).  So
the complete call is exactly a reschedule with an empty request body. -/
def completeAppointment (today now₁ now₂ : Nat) (store : Store) (id : String) :
    Except RescheduleError (Store × String) :=
  reschedule today now₁ now₂ store id none none none none

/-! Concrete stores used to evaluate the handlers.  Throughout, `today = 5`;
dates `10`, `11` are in the future and date `1` is in the past. -/

/-- An available slot of doctor `D1` at (date 10, time 100). -/
def s1 : Slot :=
  { id := "S1", doctorId := "D1", date := 10, time := 100,
    status := Status.available, patientId := none, notes := none, updatedAt := 0 }

/-- The same slot already booked by patient `pA` with notes. -/
def s1Booked : Slot :=
  { s1 with status := Status.booked, patientId := some "pA", notes := some "cough" }

/-- An available slot of doctor `D1` at (date 11, time 90). -/
def s2 : Slot :=
  { id := "S2", doctorId := "D1", date := 11, time := 90,
    status := Status.available, patientId := none, notes := none, updatedAt := 0 }

/-- A second available slot of doctor `D1` on date 10, at time 200. -/
def s3 : Slot :=
  { id := "S3", doctorId := "D1", date := 10, time := 200,
    status := Status.available, patientId := none, notes := none, updatedAt := 0 }

/-- The claim-level slot invariant the code actually maintains: a booked
slot carries a patient and an available slot carries none.  (The full
claimed iff fails: cancelled slots retain their patient, see the
counterexample.) -/
def Inv (store : Store) : Prop :=
  ∀ s ∈ store, (s.status = Status.booked → s.patientId ≠ none) ∧
    (s.status = Status.available → s.patientId = none)

instance (store : Store) : Decidable (Inv store) :=
  decidable_of_iff
    (∀ s ∈ store, (s.status = Status.booked → s.patientId ≠ none) ∧
      (s.status = Status.available → s.patientId = none)) Iff.rfl

/-- Inversion of a successful book check: the slot it returns is a row of
the store, matches the requested (doctor, date, time), is available, and
the guards passed. -/
theorem bookCheck_ok {today : Nat} {store : Store} {p d : String} {date time : Nat} {slot : Slot}
    (h : bookCheck today store p d date time = .ok slot) :
    slot ∈ store ∧ slot.doctorId = d ∧ slot.date = date ∧ slot.time = time ∧
      slot.status = Status.available ∧ today ≤ date ∧ ¬(p = "" ∨ d = "") := by
  unfold bookCheck at h
  split at h
  · exact Except.noConfusion h
  next hpd =>
  split at h
  · exact Except.noConfusion h
  next hdate =>
  split at h
  next hfind => exact Except.noConfusion h
  next slot' hfind =>
  split at h
  next e hex => exact Except.noConfusion h
  next hex =>
    injection h with h
    subst h
    have hmem := List.mem_of_find?_eq_some hfind
    have hpred := List.find?_some hfind
    simp only [isAvailableSlotFor, decide_eq_true_eq] at hpred
    exact ⟨hmem, hpred.1, hpred.2.1, hpred.2.2.1, hpred.2.2.2, Nat.le_of_not_lt hdate, hpd⟩

/-- Inversion of a successful reschedule check: the source row was found by
id and is booked, the target row is an available row at the requested
coordinates. -/
theorem rescheduleCheck_ok {today : Nat} {store : Store} {id : String}
    {doctorId : Option String} {date time : Option Nat} {a tgt : Slot}
    (h : rescheduleCheck today store id doctorId date time = .ok (a, tgt)) :
    store.find? (hasId id) = some a ∧ a ∈ store ∧ a.id = id ∧ a.status = Status.booked ∧
      tgt ∈ store ∧ tgt.status = Status.available ∧
      tgt.doctorId = strOrD doctorId a.doctorId ∧
      tgt.date = date.getD a.date ∧ tgt.time = time.getD a.time := by
  unfold rescheduleCheck at h
  split at h
  · exact Except.noConfusion h
  next appt hfound =>
  have hfind : ∀ (hf : rescheduleCheck.rescheduleFind today store id doctorId date time appt =
      .ok (a, tgt)) (hst : appt.status = Status.booked),
      store.find? (hasId id) = some a ∧ a ∈ store ∧ a.id = id ∧ a.status = Status.booked ∧
        tgt ∈ store ∧ tgt.status = Status.available ∧
        tgt.doctorId = strOrD doctorId a.doctorId ∧
        tgt.date = date.getD a.date ∧ tgt.time = time.getD a.time := by
    intro hf hst
    unfold rescheduleCheck.rescheduleFind at hf
    split at hf
    next => exact Except.noConfusion hf
    next newSlot hnew =>
    split at hf
    next e hex => exact Except.noConfusion hf
    next hex =>
      injection hf with hf
      injection hf with hf₁ hf₂
      subst hf₁; subst hf₂
      have hmemT := List.mem_of_find?_eq_some hnew
      have hpredT := List.find?_some hnew
      simp only [isAvailableSlotFor, decide_eq_true_eq] at hpredT
      have hmemA := List.mem_of_find?_eq_some hfound
      have hpredA := List.find?_some hfound
      simp only [hasId, decide_eq_true_eq] at hpredA
      exact ⟨hfound, hmemA, hpredA, hst, hmemT, hpredT.2.2.2, hpredT.1, hpredT.2.1, hpredT.2.2.1⟩
  split at h
  next hst =>
    split at h
    next dd hd =>
      split at h
      · exact Except.noConfusion h
      next => exact hfind h hst
    next => exact hfind h hst
  next => exact Except.noConfusion h

/-- C3 (amended): immediately after every successful book or reschedule
commit, every booked slot carries a non-null patientId and every available
slot carries a null one; the claimed full iff fails only because cancelled
slots retain the patient they had when booked. -/
theorem book_reschedule_preserve_claim_invariant :
    (∀ today now store p d date time notes store' ret,
      Inv store → book today now store p d date time notes = .ok (store', ret) → Inv store') ∧
    (∀ today now₁ now₂ store id doctorId date time notes store' rid,
      Inv store →
      reschedule today now₁ now₂ store id doctorId date time notes = .ok (store', rid) →
      Inv store') := by
  constructor
  · intro today now store p d date time notes store' ret hInv h
    unfold book at h
    cases hc : bookCheck today store p d date time with
    | error e => rw [hc] at h; exact Except.noConfusion h
    | ok slot =>
      rw [hc] at h
      injection h with h
      injection h with h₁ _
      subst h₁
      intro s hs
      unfold bookWrite at hs
      rw [List.mem_map] at hs
      obtain ⟨t, ht, rfl⟩ := hs
      by_cases hid : t.id = slot.id
      · simp only [if_pos hid]
        exact ⟨fun _ => by simp, fun hav => by simp at hav⟩
      · simp only [if_neg hid]
        exact hInv t ht
  · intro today now₁ now₂ store id doctorId date time notes store' rid hInv h
    unfold reschedule at h
    cases hc : rescheduleCheck today store id doctorId date time with
    | error e => rw [hc] at h; exact Except.noConfusion h
    | ok pr =>
      obtain ⟨a, tgt⟩ := pr
      rw [hc] at h
      injection h with h
      injection h with h₁ _
      subst h₁
      obtain ⟨_, hmemA, _, hbooked, _, _, _, _, _⟩ := rescheduleCheck_ok hc
      have hpat : a.patientId ≠ none := (hInv a hmemA).1 hbooked
      intro s hs
      unfold claimSlot at hs
      rw [List.mem_map] at hs
      obtain ⟨u, hu, rfl⟩ := hs
      by_cases hidT : u.id = tgt.id
      · simp only [if_pos hidT]
        exact ⟨fun _ => hpat, fun hav => by simp at hav⟩
      · simp only [if_neg hidT]
        unfold freeSlot at hu
        rw [List.mem_map] at hu
        obtain ⟨t, ht, rfl⟩ := hu
        by_cases hidS : t.id = id
        · simp [if_pos hidS]
        · simp only [if_neg hidS]
          exact hInv t ht

/-- Witness for the amended C3 invariant theorem at a concrete booking. -/
theorem book_reschedule_invariant_witness :
    Inv [{ s1 with patientId := some "pA", status := Status.booked, updatedAt := 1 }, s3] :=
  book_reschedule_preserve_claim_invariant.1 5 1 [s1, s3] "pA" "D1" 10 100 none
    [{ s1 with patientId := some "pA", status := Status.booked, updatedAt := 1 }, s3]
    { s1 with patientId := some "pA", status := Status.booked, updatedAt := 1 }
    (by decide) (by decide)

end Appointment

namespace Appointment

/-- C1 (code_bug): the booking mutation is not a compare-and-set.  Both
concurrent requests pass the availability check against the initial store
(the two SELECTs run before either UPDATE), and each write phase then
applies unconditionally: the UPDATE's WHERE clause tests only the id, and
the handler never reads `this.changes`, so the second writer silently
overwrites the first instead of receiving `SlotUnavailable`.  The third
conjunct shows the second write succeeding although the slot's status at
write time is already `booked` (by `pA`); both requests therefore reach the
201 success response and the final row carries `pB`. -/
theorem book_update_unconditional_race :
    bookCheck 5 [s1] "pA" "D1" 10 100 = .ok s1 ∧
    bookCheck 5 [s1] "pB" "D1" 10 100 = .ok s1 ∧
    bookWrite 6 [s1] "pA" none "S1" =
      [{ s1 with patientId := some "pA", status := Status.booked, updatedAt := 6 }] ∧
    bookWrite 7 (bookWrite 6 [s1] "pA" none "S1") "pB" none "S1" =
      [{ s1 with patientId := some "pB", status := Status.booked, updatedAt := 7 }] := by
  decide

/-- C2 (code_bug): reschedule is not atomic.  Its two UPDATE statements run
without any enclosing transaction, so the store state between them — the
source slot already released while the target slot is still unclaimed — is
a committed, observable state; a failure of the second statement would
also leave exactly this state behind.  The final conjunct records the
eventual outcome for contrast. -/
theorem reschedule_not_atomic :
    rescheduleCheck 5 [s1Booked, s2] "S1" none (some 11) (some 90) = .ok (s1Booked, s2) ∧
    freeSlot 6 [s1Booked, s2] "S1" =
      [{ s1 with updatedAt := 6 }, s2] ∧
    reschedule 5 6 7 [s1Booked, s2] "S1" none (some 11) (some 90) none =
      .ok ([{ s1 with updatedAt := 6 },
            { s2 with patientId := some "pA", status := Status.booked,
                      notes := some "cough", updatedAt := 7 }], "S2") := by
  decide

/-- C4 (code_bug): the backend has no complete operation.  The front-end's
`completeAppointment` issues `PUT /appointments/:id`, which the backend
routes to the reschedule handler; on a booked appointment whose own
(doctor, date, time) slot is of course not `available`, the call fails with
the reschedule error "New time slot is not available" and never sets
`status = completed` nor stores a diagnosis or prescription (the
`appointments` table has no such columns).  On an already-completed row the
call fails with the handler's status guard instead. -/
theorem complete_not_implemented :
    completeAppointment 5 6 7 [s1Booked] "S1" = .error .slotUnavailable ∧
    RescheduleError.message .slotUnavailable = "New time slot is not available" ∧
    completeAppointment 5 6 7 [{ s1Booked with status := Status.completed }] "S1" =
      .error .invalidTransition := by
  decide

/-- C3 (counterexample): the claimed iff fails.  Book S1 for `pA`, cancel
it (the cancel UPDATE sets only `status`/`updatedAt`, leaving `patientId`),
then book S3 for the same patient: this last book succeeds, and immediately
after its commit the store contains slot S1 with `status = cancelled` and
`patientId = some pA` — a non-booked slot carrying a non-null patientId. -/
theorem booked_iff_patient_counterexample :
    book 5 1 [s1, s3] "pA" "D1" 10 100 none =
      .ok ([{ s1 with patientId := some "pA", status := Status.booked, updatedAt := 1 }, s3],
           { s1 with patientId := some "pA", status := Status.booked, updatedAt := 1 }) ∧
    cancel 5 2 [{ s1 with patientId := some "pA", status := Status.booked, updatedAt := 1 }, s3] "S1" =
      .ok ([{ s1 with patientId := some "pA", status := Status.cancelled, updatedAt := 2 }, s3]) ∧
    book 5 3 [{ s1 with patientId := some "pA", status := Status.cancelled, updatedAt := 2 }, s3]
        "pA" "D1" 10 200 none =
      .ok ([{ s1 with patientId := some "pA", status := Status.cancelled, updatedAt := 2 },
            { s3 with patientId := some "pA", status := Status.booked, updatedAt := 3 }],
           { s3 with patientId := some "pA", status := Status.booked, updatedAt := 3 }) ∧
    ({ s1 with patientId := some "pA", status := Status.cancelled, updatedAt := 2 } : Slot).status ≠
      Status.booked ∧
    ({ s1 with patientId := some "pA", status := Status.cancelled, updatedAt := 2 } : Slot).patientId ≠
      none := by
  decide

/-- C5 (counterexample): the notes are not stored as supplied.  Booking the
demo available slot with supplied notes `""` (the spec's own scenario books
with `""`) succeeds, but the stored and returned notes are NULL — the
handler binds `notes || null`, coercing the empty string — so the final
slot's notes differ from the supplied notes. -/
theorem book_empty_notes_counterexample :
    book 5 6 [s1] "pA" "D1" 10 100 (some "") =
      .ok ([{ s1 with patientId := some "pA", status := Status.booked, updatedAt := 6 }],
           { s1 with patientId := some "pA", status := Status.booked, updatedAt := 6 }) ∧
    ({ s1 with patientId := some "pA", status := Status.booked, updatedAt := 6 } : Slot).notes
      = none ∧
    (none : Option String) ≠ some "" := by
  decide

/-- C5 (amended): on every successful book (available slot at the requested
coordinates, date not in the past, no conflicting booking), whatever the
supplied notes, the handler rewrites exactly the rows holding the found
slot's id — setting the status to booked, the patientId to the booking
patient, updatedAt to now, and the notes to the supplied notes normalized
by `notes || null`: the supplied notes themselves when non-empty, NULL when
absent or empty — returns that updated slot, and every other row of the
store is kept verbatim. -/
theorem book_success_postcondition :
    ∀ (today now : Nat) (store : Store) (p d : String) (date time : Nat)
      (notes : Option String) (slot : Slot),
      bookCheck today store p d date time = .ok slot →
      book today now store p d date time notes =
        .ok (store.map (fun s => if s.id = slot.id then
              { s with patientId := some p, status := Status.booked,
                       notes := strOr notes none, updatedAt := now } else s),
             { slot with patientId := some p, status := Status.booked,
                         notes := strOr notes none, updatedAt := now }) ∧
      (∀ ns : String, ns ≠ "" → notes = some ns → strOr notes none = some ns) ∧
      (notes = none ∨ notes = some "" → strOr notes none = none) ∧
      slot ∈ store ∧ slot.status = Status.available ∧ slot.doctorId = d ∧
      slot.date = date ∧ slot.time = time ∧ today ≤ date ∧
      (∀ s ∈ store, s.id ≠ slot.id →
        s ∈ store.map (fun s' => if s'.id = slot.id then
              { s' with patientId := some p, status := Status.booked,
                        notes := strOr notes none, updatedAt := now } else s')) := by
  intro today now store p d date time notes slot hc
  obtain ⟨hmem, hdoc, hdate, htime, hstat, hle, _⟩ := bookCheck_ok hc
  refine ⟨?_, ?_, ?_, hmem, hstat, hdoc, hdate, htime, hle, ?_⟩
  · simp [book, hc, bookWrite]
  · intro ns hns hn
    subst hn
    simp [strOr, hns]
  · rintro (rfl | rfl) <;> simp [strOr]
  · intro s hs hne
    rw [List.mem_map]
    exact ⟨s, hs, by simp [hne]⟩

/-- Witness for the C5 postcondition: booking the demo available slot. -/
theorem book_success_postcondition_witness :
    book 5 6 [s1] "pA" "D1" 10 100 (some "cough") =
      .ok ([s1].map (fun s => if s.id = s1.id then
            { s with patientId := some "pA", status := Status.booked,
                     notes := strOr (some "cough") none, updatedAt := 6 } else s),
           { s1 with patientId := some "pA", status := Status.booked,
                     notes := strOr (some "cough") none, updatedAt := 6 }) :=
  (book_success_postcondition 5 6 [s1] "pA" "D1" 10 100 (some "cough") s1 (by decide)).1

/-- C6 (amended): book's failure taxonomy with the code's precedence — the
past-date guard runs first, then the availability SELECT, then the
double-booking SELECT; every failure path responds before the UPDATE, so
the store is unchanged; and the failure kinds map to pairwise distinct
client-visible error strings. -/
theorem book_failure_taxonomy :
    ∀ (today now : Nat) (store : Store) (p d : String) (date time : Nat)
      (notes : Option String),
      p ≠ "" → d ≠ "" →
      (date < today → book today now store p d date time notes = .error .pastDate) ∧
      (today ≤ date → store.find? (isAvailableSlotFor d date time) = none →
        book today now store p d date time notes = .error .slotUnavailable) ∧
      (∀ slot e, today ≤ date →
        store.find? (isAvailableSlotFor d date time) = some slot →
        store.find? (isPatientBookedAt (some p) date time none) = some e →
        book today now store p d date time notes = .error .doubleBooking) ∧
      (∀ e, book today now store p d date time notes = .error e →
        bookStore today now store p d date time notes = store) ∧
      (∀ e₁ e₂ : BookError, BookError.message e₁ = BookError.message e₂ → e₁ = e₂) := by
  intro today now store p d date time notes hp hd
  have hpd : ¬(p = "" ∨ d = "") := by simp [hp, hd]
  refine ⟨?_, ?_, ?_, ?_, ?_⟩
  · intro hlt
    simp [book, bookCheck, hpd, hlt]
  · intro hge hfind
    have hnl : ¬ date < today := Nat.not_lt.mpr hge
    simp [book, bookCheck, hpd, hnl, hfind]
  · intro slot e hge hfind hex
    have hnl : ¬ date < today := Nat.not_lt.mpr hge
    simp [book, bookCheck, hpd, hnl, hfind, hex]
  · intro e he
    simp [bookStore, he]
  · intro e₁ e₂ hm
    cases e₁ <;> cases e₂ <;> first | rfl | (exfalso; revert hm; decide)

/-- Witness for the C6 taxonomy: the demo booked slot yields SlotUnavailable. -/
theorem book_failure_taxonomy_witness :
    book 5 9 [s1Booked] "pB" "D1" 10 100 none = .error .slotUnavailable :=
  (book_failure_taxonomy 5 9 [s1Booked] "pB" "D1" 10 100 none
    (by decide) (by decide)).2.1 (by decide) (by decide)

/-- C6 (counterexample): the failure kinds are not checked in the claimed
order.  For a slot that is both past-dated and not `available` (here:
booked, on date 1 with today = 5), the handler returns `PastDate` — the
past-date guard runs before the availability SELECT — whereas the claim
("fails with SlotUnavailable when the requested slot's status is not
'available'") requires `SlotUnavailable` on this input. -/
theorem book_pastDate_precedes_slotUnavailable :
    book 5 9 [{ s1Booked with date := 1 }] "pB" "D1" 1 100 none = .error .pastDate ∧
    BookError.pastDate ≠ BookError.slotUnavailable := by
  decide

/-- C9 (counterexample): `listAvailableSlots` is not total in the date.  For
a past date (1 < today = 5) it fails with the past-date error instead of
returning the (possibly empty) list of available slots — here the store
even holds an available slot on that date. -/
theorem listAvailableSlots_past_date_counterexample :
    listAvailableSlots 5 [{ s1 with date := 1 }] "D1" 1 = .error .pastDate ∧
    ListSlotsError.message .pastDate = "Cannot view slots for past dates" := by
  decide

/-- C7: on a successful reschedule (source found by id and booked, target
available at the requested coordinates, no conflicting booking elsewhere),
the source rows become available with patientId and notes cleared, the
target rows become booked carrying the source's patient and notes (no
request notes are supplied, matching the spec's reschedule signature), the
double-booking check can never match the slot being moved, and every other
row is unchanged.  Row ids are a PRIMARY KEY, hence the Nodup hypothesis. -/
theorem reschedule_success_postcondition :
    ∀ (today now₁ now₂ : Nat) (store : Store) (id : String) (doctorId : Option String)
      (date time : Option Nat) (a tgt : Slot),
      (store.map Slot.id).Nodup →
      rescheduleCheck today store id doctorId date time = .ok (a, tgt) →
      reschedule today now₁ now₂ store id doctorId date time none =
        .ok (claimSlot now₂ (freeSlot now₁ store id) a.patientId a.notes tgt.id, tgt.id) ∧
      (∀ s : Slot, s.id = id →
        isPatientBookedAt a.patientId (date.getD a.date) (time.getD a.time) (some id) s
          = false) ∧
      (∀ s ∈ claimSlot now₂ (freeSlot now₁ store id) a.patientId a.notes tgt.id,
        (s.id = id → s.status = Status.available ∧ s.patientId = none ∧ s.notes = none) ∧
        (s.id = tgt.id → s.status = Status.booked ∧ s.patientId = a.patientId ∧
          s.notes = a.notes)) ∧
      (∀ s ∈ store, s.id ≠ id → s.id ≠ tgt.id →
        s ∈ claimSlot now₂ (freeSlot now₁ store id) a.patientId a.notes tgt.id) := by
  intro today now₁ now₂ store id doctorId date time a tgt hnodup hc
  obtain ⟨hfound, hmemA, haid, hbooked, hmemT, htav, _, _, _⟩ := rescheduleCheck_ok hc
  have hANe : a ≠ tgt := by
    intro hEq
    rw [hEq] at hbooked
    rw [hbooked] at htav
    exact Status.noConfusion htav
  have hneq : id ≠ tgt.id := by
    intro hEq
    exact hANe (List.inj_on_of_nodup_map hnodup hmemA hmemT (by rw [haid, hEq]))
  refine ⟨?_, ?_, ?_, ?_⟩
  · simp [reschedule, hc, strOr]
  · intro s hsid
    cases hap : a.patientId with
    | none => simp [isPatientBookedAt]
    | some pp => simp [isPatientBookedAt, hsid]
  · intro s hs
    unfold claimSlot at hs
    rw [List.mem_map] at hs
    obtain ⟨u, hu, rfl⟩ := hs
    unfold freeSlot at hu
    rw [List.mem_map] at hu
    obtain ⟨t, ht, rfl⟩ := hu
    by_cases ht1 : t.id = id
    · have ht2 : ¬ t.id = tgt.id := by rw [ht1]; exact hneq
      simp [ht1, ht2, hneq]
    · by_cases ht2 : t.id = tgt.id
      · simp [ht1, ht2, Ne.symm hneq]
      · simp [ht1, ht2]
  · intro s hs h1 h2
    unfold claimSlot freeSlot
    rw [List.mem_map]
    refine ⟨s, ?_, by simp [h2]⟩
    rw [List.mem_map]
    exact ⟨s, hs, by simp [h1]⟩

/-- Witness for the C7 postcondition: moving the booked demo slot S1 to the
available slot S2. -/
theorem reschedule_success_postcondition_witness :
    reschedule 5 6 7 [s1Booked, s2] "S1" none (some 11) (some 90) none =
      .ok (claimSlot 7 (freeSlot 6 [s1Booked, s2] "S1") s1Booked.patientId s1Booked.notes
            s2.id, s2.id) :=
  (reschedule_success_postcondition 5 6 7 [s1Booked, s2] "S1" none (some 11) (some 90)
    s1Booked s2 (by decide) (by decide)).1

/-- C8: cancel's contract, in the handler's check order — NotFound when no
row holds the id; InvalidTransition when the row's status is not booked (in
particular available or cancelled); PastDate when the booked row's date is
before today; on success only the rows holding the id change, to status
cancelled with a fresh updatedAt, no row is added, and no row becomes
available — so no available slot is created or restored at the freed
(doctor, date, time). -/
theorem cancel_contract :
    ∀ (today now : Nat) (store : Store) (id : String),
      (store.find? (hasId id) = none → cancel today now store id = .error .notFound) ∧
      (∀ a, store.find? (hasId id) = some a → a.status ≠ Status.booked →
        cancel today now store id = .error .invalidTransition) ∧
      (∀ a, store.find? (hasId id) = some a → a.status = Status.booked → a.date < today →
        cancel today now store id = .error .pastDate) ∧
      (∀ a, store.find? (hasId id) = some a → a.status = Status.booked → today ≤ a.date →
        cancel today now store id =
          .ok (store.map fun s => if s.id = id then
            { s with status := Status.cancelled, updatedAt := now } else s) ∧
        (∀ v ∈ store.map (fun s => if s.id = id then
            { s with status := Status.cancelled, updatedAt := now } else s),
          v.status = Status.available → v ∈ store) ∧
        (store.map fun s => if s.id = id then
            { s with status := Status.cancelled, updatedAt := now } else s).length
          = store.length) := by
  intro today now store id
  refine ⟨?_, ?_, ?_, ?_⟩
  · intro h
    simp [cancel, h]
  · intro a ha hs
    simp [cancel, ha, hs]
  · intro a ha hs hlt
    simp [cancel, ha, hs, hlt]
  · intro a ha hs hge
    have hnl : ¬ a.date < today := Nat.not_lt.mpr hge
    refine ⟨by simp [cancel, ha, hs, hnl], ?_, by simp⟩
    intro v hv hav
    rw [List.mem_map] at hv
    obtain ⟨t, ht, rfl⟩ := hv
    by_cases hid : t.id = id
    · rw [if_pos hid] at hav ⊢
      exact absurd hav (by simp)
    · rw [if_neg hid]
      exact ht

/-- Witness for the C8 contract: cancelling the booked demo slot. -/
theorem cancel_contract_witness :
    cancel 5 9 [s1Booked] "S1" =
      .ok ([s1Booked].map fun s => if s.id = "S1" then
        { s with status := Status.cancelled, updatedAt := 9 } else s) :=
  ((cancel_contract 5 9 [s1Booked] "S1").2.2.2 s1Booked
    (by decide) (by decide) (by decide)).1

/-- C9 (amended): for every doctor and every date not earlier than today,
the handler returns exactly the store's available slots of that doctor and
date — the result is a permutation of the filtered projection, so nothing
is added or omitted — ordered by time ascending; membership is
characterized against the store.  (The handler performs only a SELECT: it
returns no store, so it cannot modify one.  For past dates it errors
instead, see the counterexample.) -/
theorem listAvailableSlots_exact_sorted :
    ∀ (today : Nat) (store : Store) (d : String) (date : Nat),
      d ≠ "" → today ≤ date →
      listAvailableSlots today store d date = .ok (availableSlotsQuery store d date) ∧
      (availableSlotsQuery store d date).Perm
        ((store.filter (isAvailableOn d date)).map toView) ∧
      (availableSlotsQuery store d date).Sorted timeLe ∧
      (∀ v, v ∈ availableSlotsQuery store d date ↔
        ∃ s ∈ store, s.doctorId = d ∧ s.date = date ∧ s.status = Status.available ∧
          v = toView s) := by
  intro today store d date hd hge
  have hnl : ¬ date < today := Nat.not_lt.mpr hge
  refine ⟨by simp [listAvailableSlots, hd, hnl], ?_, ?_, ?_⟩
  · exact List.perm_insertionSort timeLe _
  · exact List.sorted_insertionSort timeLe _
  · intro v
    unfold availableSlotsQuery
    rw [List.mem_insertionSort, List.mem_map]
    constructor
    · rintro ⟨s, hsf, rfl⟩
      rw [List.mem_filter] at hsf
      obtain ⟨hsm, hsp⟩ := hsf
      simp only [isAvailableOn, decide_eq_true_eq] at hsp
      exact ⟨s, hsm, hsp.1, hsp.2.1, hsp.2.2, rfl⟩
    · rintro ⟨s, hsm, h1, h2, h3, rfl⟩
      exact ⟨s, List.mem_filter.mpr ⟨hsm, by simp [isAvailableOn, h1, h2, h3]⟩, rfl⟩

/-- Witness for the C9 amended theorem: listing doctor D1's available slots
on date 10 in a store holding two of them out of time order. -/
theorem listAvailableSlots_exact_sorted_witness :
    listAvailableSlots 5 [s3, s1] "D1" 10 = .ok (availableSlotsQuery [s3, s1] "D1" 10) :=
  (listAvailableSlots_exact_sorted 5 [s3, s1] "D1" 10 (by decide) (by decide)).1

/-- C10: for a date earlier than today (and both query parameters present),
the handler fails with the past-date error — the exact client-visible
string "Cannot view slots for past dates" — rather than returning a list. -/
theorem listAvailableSlots_past_date_error :
    ∀ (today : Nat) (store : Store) (d : String) (date : Nat),
      d ≠ "" → date < today →
      listAvailableSlots today store d date = .error .pastDate ∧
      ListSlotsError.message .pastDate = "Cannot view slots for past dates" ∧
      ∀ l, listAvailableSlots today store d date ≠ .ok l := by
  intro today store d date hd hlt
  have h : listAvailableSlots today store d date = .error .pastDate := by
    simp [listAvailableSlots, hd, hlt]
  refine ⟨h, rfl, ?_⟩
  intro l hl
  rw [h] at hl
  exact Except.noConfusion hl

/-- Witness for C10 at a concrete past date. -/
theorem listAvailableSlots_past_date_error_witness :
    listAvailableSlots 5 [s1, s2] "D1" 2 = .error .pastDate :=
  (listAvailableSlots_past_date_error 5 [s1, s2] "D1" 2 (by decide) (by decide)).1

end Appointment
